import Mathlib

/-!
# Formal model of the CRM customer-intake workflow (`src/app.py`)

A shallow embedding of the authorization + approval state-machine +
record-store core of the application.  Python dicts are modelled as
insertion-ordered association lists (Python 3.7+ dict semantics:
assignment to an existing key replaces in place, a new key is appended
at the end, `del` removes the entry).  Roles and status values are kept
as strings, exactly as the code stores them.  Wall-clock reads
(`datetime.now()`) and external effects (bcrypt salting, the file
system) are passed in as explicit parameters, one per call site.
-/

namespace CRM

/-- Insertion-ordered association-list lookup (Python `d[k]` / `k in d`). -/
def lookupKey {α : Type} (k : String) : List (String × α) → Option α
  | [] => none
  | (k', v) :: t => if k' = k then some v else lookupKey k t

/-- Python `d[k] = v`: replace in place if the key exists, else append. -/
def insertKey {α : Type} (k : String) (v : α) : List (String × α) → List (String × α)
  | [] => [(k, v)]
  | (k', v') :: t => if k' = k then (k, v) :: t else (k', v') :: insertKey k v t

/-- Python `del d[k]`: remove the entry for `k`, keeping the rest in order. -/
def eraseKey {α : Type} (k : String) : List (String × α) → List (String × α)
  | [] => []
  | (k', v') :: t => if k' = k then t else (k', v') :: eraseKey k t

/-- A user account, mirroring the dicts stored in `db["users"]`. -/
structure Account where
  username : String
  password : String
  role : String
  assigned_branches : List String
  created_by : String
  created_at : String
deriving Repr, DecidableEq

/-- A customer record, mirroring the dicts stored in `db["customers"]`. -/
structure Customer where
  customer_id : String
  name : String
  phone : String
  aadhaar_number : String
  email : String
  branch : String
  submitted_by : String
  status : String
  document_path : String
  created_at : String
  updated_at : String
deriving Repr, DecidableEq

/-- The dashboard configuration section of the data file. -/
structure Dashboard where
  text : String
  image_path : Option String
deriving Repr, DecidableEq

/-- The full persisted snapshot (`crm_data.json` top-level object). -/
structure Store where
  users : List (String × Account)
  customers : List (String × Customer)
  dashboard : Dashboard
deriving Repr, DecidableEq

/-- `generate_customer_id` (app.py:79-80): a time-derived identifier. -/
def generate_customer_id (ts : Int) : String :=
  "CUST-" ++ toString ts

/-- Python `str.isdigit()` restricted to ASCII digits: non-empty and all digits. -/
def isdigit (s : String) : Bool :=
  !s.isEmpty && s.data.all Char.isDigit

/-- The closed error vocabulary of the specification (§7). -/
inductive OpError where
  | MissingField
  | InvalidPhone
  | InvalidAadhaar
  | InvalidEmail
  | PermissionDenied
  | NotFound
  | AlreadyFinal
  | FileRemovalFailed
  | DuplicateUsername
  | WeakPassword
  | InvalidInput
deriving Repr, DecidableEq

/-- Run a fallible store operation: on error the store is left untouched. -/
def runOp (r : Except OpError Store) (db : Store) : Store :=
  match r with
  | .ok db' => db'
  | .error _ => db

/--
`submit_customer_page` button handler (app.py:499-530).

`file` is the uploaded document's name, `none` when nothing was uploaded;
`ts` is the `datetime.now().timestamp()` read inside `generate_customer_id`;
`now1` and `now2` are the two separate `str(datetime.now())` reads used for
`created_at` and `updated_at` (app.py:523-524).
-/
def submit_customer (user : Account) (name phone aadhaar email : String)
    (file : Option String) (ts : Int) (now1 now2 : String) (db : Store) :
    Except OpError Store :=
  let branch := match user.assigned_branches with
    | [] => "Unassigned"
    | b :: _ => b
  if name = "" ∨ phone = "" ∨ aadhaar = "" ∨ file = none then
    .error .MissingField
  else if ¬ (isdigit phone ∧ phone.length = 10) then
    .error .InvalidPhone
  else if ¬ (isdigit aadhaar ∧ aadhaar.length = 12) then
    .error .InvalidAadhaar
  else
    let cid := generate_customer_id ts
    let fname := match file with | some n => n | none => ""
    let fpath := "uploads/" ++ cid ++ "_" ++ fname
    let newRec : Customer :=
      { customer_id := cid
        name := name
        phone := phone
        aadhaar_number := aadhaar
        email := email
        branch := branch
        submitted_by := user.username
        status := "submitted"
        document_path := fpath
        created_at := now1
        updated_at := now2 }
    .ok { db with customers := insertKey cid newRec db.customers }

/--
The approval actions of `view_records_page` (app.py:589-610), combined into
one transition function.  The area-manager button is rendered (and hence the
transition possible) exactly when the record is `submitted`, the viewer is an
`area_manager` and the record's branch is among the viewer's assigned
branches; the AGM button exactly when the record is `approved_by_area_manager`
and the viewer is an `AGM`.  All other attempts are impossible in the UI and
are reported with the specification's error names.
-/
def approve (user : Account) (cid : String) (now : String) (db : Store) :
    Except OpError Store :=
  match lookupKey cid db.customers with
  | none => .error .NotFound
  | some c =>
    if c.status = "submitted" then
      if user.role = "area_manager" ∧ c.branch ∈ user.assigned_branches then
        let c' := { c with status := "approved_by_area_manager", updated_at := now }
        .ok { db with customers := insertKey c.customer_id c' db.customers }
      else .error .PermissionDenied
    else if c.status = "approved_by_area_manager" then
      if user.role = "AGM" then
        let c' := { c with status := "approved_by_agm", updated_at := now }
        .ok { db with customers := insertKey c.customer_id c' db.customers }
      else .error .PermissionDenied
    else .error .AlreadyFinal

/--
The admin delete action of `view_records_page` (app.py:614-626).

`fileExists p` models `os.path.exists(p)` and `removeOk p` models whether
`os.remove(p)` succeeds; when removal raises, the exception lands in the
surrounding `except` block before `del db["customers"][...]` runs, so the
record survives.
-/
def delete_customer (user : Account) (cid : String)
    (fileExists removeOk : String → Bool) (db : Store) : Except OpError Store :=
  if user.role ≠ "admin" then .error .PermissionDenied
  else
    match lookupKey cid db.customers with
    | none => .error .NotFound
    | some c =>
      if c.document_path ≠ "" ∧ fileExists c.document_path then
        if removeOk c.document_path then
          .ok { db with customers := eraseKey c.customer_id db.customers }
        else .error .FileRemovalFailed
      else
        .ok { db with customers := eraseKey c.customer_id db.customers }

/-- `l.startsWithSeq p`: the list `l` begins with the sequence `p`. -/
def startsWithSeq : List Char → List Char → Bool
  | _, [] => true
  | [], _ :: _ => false
  | a :: as, b :: bs => a = b && startsWithSeq as bs

/-- Python `needle in hay` on strings: contiguous-subsequence containment. -/
def containsSub (hay needle : List Char) : Bool :=
  match hay with
  | [] => needle.isEmpty
  | _ :: t => startsWithSeq hay needle || containsSub t needle

/-- `view_records_page` search match (app.py:548-551): case-insensitive
substring match against name, customer ID, or phone. -/
def matchesSearch (search : String) (c : Customer) : Bool :=
  containsSub c.name.toLower.data search.toLower.data ||
  containsSub c.customer_id.toLower.data search.toLower.data ||
  containsSub c.phone.toLower.data search.toLower.data

/-- `view_records_page` listing (app.py:537-551): role-scope filter then
optional search filter over the customers in insertion order. -/
def view_records (user : Account) (search : String) (db : Store) : List Customer :=
  let all := db.customers.map Prod.snd
  let scopedList :=
    if user.role = "branch" then
      all.filter (fun c => c.submitted_by = user.username)
    else if user.role = "area_manager" then
      all.filter (fun c => c.branch ∈ user.assigned_branches)
    else all
  if search ≠ "" then scopedList.filter (matchesSearch search) else scopedList

/-- `[b.strip() for b in s.split(",") if b.strip()]` (app.py:437). -/
def splitCommaTrim (s : String) : List String :=
  ((s.splitOn ",").map String.trim).filter (fun b => b ≠ "")

/--
`create_agm_page` button handler (app.py:401-419).  `hashed` is the value
produced by `hash_password(new_password)` (bcrypt with a fresh salt), passed
in explicitly; `password` is the plaintext, used only for the length check.
-/
def create_agm (creator : Account) (username password hashed now : String)
    (db : Store) : Except OpError Store :=
  if username = "" then .error .InvalidInput
  else if (lookupKey username db.users).isSome then .error .DuplicateUsername
  else if password.length < 6 then .error .WeakPassword
  else
    let acct : Account :=
      { username := username, password := hashed, role := "AGM",
        assigned_branches := [], created_by := creator.username, created_at := now }
    .ok { db with users := insertKey username acct db.users }

/-- `create_area_manager_page` button handler (app.py:429-448). -/
def create_area_manager (creator : Account)
    (username password branchesRaw hashed now : String) (db : Store) :
    Except OpError Store :=
  if username = "" then .error .InvalidInput
  else if (lookupKey username db.users).isSome then .error .DuplicateUsername
  else if password.length < 6 then .error .WeakPassword
  else
    let acct : Account :=
      { username := username, password := hashed, role := "area_manager",
        assigned_branches := splitCommaTrim branchesRaw,
        created_by := creator.username, created_at := now }
    .ok { db with users := insertKey username acct db.users }

/-- `create_branch_user_page` button handler (app.py:460-480). -/
def create_branch_user (creator : Account)
    (username password branch hashed now : String) (db : Store) :
    Except OpError Store :=
  if username = "" then .error .InvalidInput
  else if (lookupKey username db.users).isSome then .error .DuplicateUsername
  else if password.length < 6 then .error .WeakPassword
  else if branch = "" then .error .InvalidInput
  else
    let acct : Account :=
      { username := username, password := hashed, role := "branch",
        assigned_branches := [branch.trim], created_by := creator.username,
        created_at := now }
    .ok { db with users := insertKey username acct db.users }

/-- `settings_page` "Update Dashboard" button (app.py:659-668): sets the
welcome text and, when an image was uploaded, a fresh image path. -/
def update_dashboard (text : String) (img : Option String) (ts : Int)
    (db : Store) : Store :=
  let db := { db with dashboard := { db.dashboard with text := text } }
  match img with
  | none => db
  | some _ =>
    { db with dashboard := { db.dashboard with
        image_path := some ("uploads/dashboard_" ++ toString ts ++ ".jpg") } }

/-- `settings_page` "Delete Dashboard Image" button (app.py:649-657). -/
def delete_dashboard_image (db : Store) : Store :=
  { db with dashboard := { db.dashboard with image_path := none } }

/--
The default-admin bootstrap run at module load (app.py:98-109): if no user
keyed `"ASHIK"` exists, insert the fixed admin account (with `hashPw`
standing for `hash_password`, whose salt is random) and persist; otherwise do
nothing.
-/
def ensure_default_admin (hashPw : String → String) (now : String)
    (db : Store) : Store :=
  match lookupKey "ASHIK" db.users with
  | some _ => db
  | none =>
    let acct : Account :=
      { username := "ASHIK", password := hashPw "ASHph7#", role := "admin",
        assigned_branches := [], created_by := "system", created_at := now }
    { db with users := insertKey "ASHIK" acct db.users }

/-- Every mutating operation of the system, with its external inputs
(clock reads, uploaded file, bcrypt output, file-system behaviour) made
explicit. -/
inductive Op where
  | approval (user : Account) (cid now : String)
  | submission (user : Account) (name phone aadhaar email : String)
      (file : Option String) (ts : Int) (now1 now2 : String)
  | deletion (user : Account) (cid : String) (fileExists removeOk : String → Bool)
  | newAGM (creator : Account) (username password hashed now : String)
  | newAreaManager (creator : Account) (username password branchesRaw hashed now : String)
  | newBranchUser (creator : Account) (username password branch hashed now : String)
  | settingsUpdate (text : String) (img : Option String) (ts : Int)
  | settingsImageDelete
  | bootstrap (hashPw : String → String) (now : String)

/-- Apply an operation to the store; a failed operation leaves it unchanged. -/
def applyOp (op : Op) (db : Store) : Store :=
  match op with
  | .approval user cid now => runOp (approve user cid now db) db
  | .submission user name phone aadhaar email file ts now1 now2 =>
    runOp (submit_customer user name phone aadhaar email file ts now1 now2 db) db
  | .deletion user cid fe rk => runOp (delete_customer user cid fe rk db) db
  | .newAGM creator u p h now => runOp (create_agm creator u p h now db) db
  | .newAreaManager creator u p br h now =>
    runOp (create_area_manager creator u p br h now db) db
  | .newBranchUser creator u p b h now =>
    runOp (create_branch_user creator u p b h now db) db
  | .settingsUpdate text img ts => update_dashboard text img ts db
  | .settingsImageDelete => delete_dashboard_image db
  | .bootstrap hashPw now => ensure_default_admin hashPw now db

/-!
## Persistence layer (`load_data` / `save_data`, app.py:31-65)

The data file holds a JSON document.  The `json` module is an external
library; `load_data` and `save_data` are modelled over an abstract codec
(`parse`, `dump`) whose round-trip contract (`json.loads(json.dumps(v)) = v`)
appears as an explicit hypothesis where needed, and which is instantiated
below by an executable serializer/parser pair for concrete checking.
-/

/-- A JSON document, as produced by `json.load`. -/
inductive Json where
  | null
  | bool (b : Bool)
  | num (n : Int)
  | str (s : String)
  | arr (xs : List Json)
  | obj (kvs : List (String × Json))
deriving Repr

/-- The fresh default snapshot returned when the data file is missing or
corrupt (app.py:39-48). -/
def default_data : Json :=
  .obj [("users", .obj []), ("customers", .obj []),
        ("dashboard", .obj [("text", .str "Welcome to CRM System. Please login to continue."),
                            ("image_path", .null)])]

/-- `load_data` (app.py:31-48): read the file if present; on parse failure or
a missing file return the default snapshot. -/
def load_data (parse : String → Option Json) : Option String → Json
  | none => default_data
  | some s =>
    match parse s with
    | some v => v
    | none => default_data

/-- `save_data` (app.py:51-65): serialize the snapshot; the result is the new
contents of the data file. -/
def save_data (dump : Json → String) (v : Json) : String :=
  dump v

/-- Escape a character for a JSON string literal (backslash and quote). -/
def escChar (c : Char) : String :=
  if c = '\\' then "\\\\"
  else if c = '"' then "\\\""
  else String.singleton c

/-- Serialize a string body with escaping. -/
def escStr (s : String) : String :=
  s.data.foldr (fun c acc => escChar c ++ acc) ""

mutual

/-- A concrete executable JSON serializer (an instance of the codec the
persistence layer is parameterized over). -/
def dumpJson : Json → String
  | .null => "null"
  | .bool true => "true"
  | .bool false => "false"
  | .num n => toString n
  | .str s => "\"" ++ escStr s ++ "\""
  | .arr xs => "[" ++ dumpArr xs ++ "]"
  | .obj kvs => "\x7b" ++ dumpObj kvs ++ "\x7d"

def dumpArr : List Json → String
  | [] => ""
  | [x] => dumpJson x
  | x :: y :: t => dumpJson x ++ "," ++ dumpArr (y :: t)

def dumpObj : List (String × Json) → String
  | [] => ""
  | [(k, v)] => "\"" ++ escStr k ++ "\":" ++ dumpJson v
  | (k, v) :: m :: t => "\"" ++ escStr k ++ "\":" ++ dumpJson v ++ "," ++ dumpObj (m :: t)

end

/-- Skip JSON whitespace. -/
def skipWs : List Char → List Char
  | [] => []
  | c :: t => if c = ' ' || c = '\n' || c = '\t' || c = '\r' then skipWs t else c :: t

/-- Read a JSON string body up to the closing quote, handling the two
escapes the serializer produces. -/
def pStr : List Char → Option (String × List Char)
  | [] => none
  | '"' :: t => some ("", t)
  | '\\' :: c :: t =>
    if c = '\\' || c = '"' then
      match pStr t with
      | some (s, r) => some (String.singleton c ++ s, r)
      | none => none
    else none
  | '\\' :: [] => none
  | c :: t =>
    match pStr t with
    | some (s, r) => some (String.singleton c ++ s, r)
    | none => none

/-- Split off a leading run of ASCII digits. -/
def pDigits : List Char → List Char × List Char
  | [] => ([], [])
  | c :: t =>
    if c.isDigit then
      let (ds, r) := pDigits t
      (c :: ds, r)
    else ([], c :: t)

/-- Decimal value of a digit run. -/
def natOfDigits (ds : List Char) : Nat :=
  ds.foldl (fun a c => a * 10 + (c.toNat - 48)) 0

mutual

/-- A concrete executable JSON reader (fueled recursive descent). -/
def pVal : Nat → List Char → Option (Json × List Char)
  | 0, _ => none
  | fuel + 1, cs =>
    match skipWs cs with
    | [] => none
    | c :: t =>
      if c = 'n' then
        match t with
        | 'u' :: 'l' :: 'l' :: r => some (.null, r)
        | _ => none
      else if c = 't' then
        match t with
        | 'r' :: 'u' :: 'e' :: r => some (.bool true, r)
        | _ => none
      else if c = 'f' then
        match t with
        | 'a' :: 'l' :: 's' :: 'e' :: r => some (.bool false, r)
        | _ => none
      else if c = '"' then
        match pStr t with
        | some (s, r) => some (.str s, r)
        | none => none
      else if c = '[' then
        match skipWs t with
        | ']' :: r => some (.arr [], r)
        | _ =>
          match pVal fuel t with
          | none => none
          | some (v, r) =>
            match pArrTail fuel r with
            | some (vs, r') => some (.arr (v :: vs), r')
            | none => none
      else if c = Char.ofNat 123 then
        match skipWs t with
        | d :: r =>
          if d = Char.ofNat 125 then some (.obj [], r)
          else
            match pMember fuel t with
            | none => none
            | some (kv, r') =>
              match pObjTail fuel r' with
              | some (kvs, r'') => some (.obj (kv :: kvs), r'')
              | none => none
        | [] => none
      else if c = '-' then
        match pDigits t with
        | ([], _) => none
        | (ds, r) => some (.num (-(natOfDigits ds : Int)), r)
      else if c.isDigit then
        let (ds, r) := pDigits (c :: t)
        some (.num (natOfDigits ds), r)
      else none

/-- Array elements after the first: `,` then a value, until `]`. -/
def pArrTail : Nat → List Char → Option (List Json × List Char)
  | 0, _ => none
  | fuel + 1, cs =>
    match skipWs cs with
    | ']' :: r => some ([], r)
    | ',' :: r =>
      match pVal fuel r with
      | none => none
      | some (v, r') =>
        match pArrTail fuel r' with
        | some (vs, r'') => some (v :: vs, r'')
        | none => none
    | _ => none

/-- One `"key": value` object member. -/
def pMember : Nat → List Char → Option ((String × Json) × List Char)
  | 0, _ => none
  | fuel + 1, cs =>
    match skipWs cs with
    | '"' :: t =>
      match pStr t with
      | none => none
      | some (k, r) =>
        match skipWs r with
        | ':' :: r' =>
          match pVal fuel r' with
          | none => none
          | some (v, r'') => some ((k, v), r'')
        | _ => none
    | _ => none

/-- Object members after the first: `,` then a member, until the closing
brace. -/
def pObjTail : Nat → List Char → Option (List (String × Json) × List Char)
  | 0, _ => none
  | fuel + 1, cs =>
    match skipWs cs with
    | [] => none
    | c :: r =>
      if c = Char.ofNat 125 then some ([], r)
      else if c = ',' then
        match pMember fuel r with
        | none => none
        | some (kv, r') =>
          match pObjTail fuel r' with
          | some (kvs, r'') => some (kv :: kvs, r'')
          | none => none
      else none

end

/-- Parse a complete JSON document, requiring only trailing whitespace. -/
def parseJson (s : String) : Option Json :=
  match pVal (s.length + 1) s.data with
  | some (v, r) => if skipWs r = [] then some v else none
  | none => none

/-!
## Specification-side predicates
-/

/-- The three pipeline status values (spec §3). -/
def validStatus (s : String) : Prop :=
  s = "submitted" ∨ s = "approved_by_area_manager" ∨ s = "approved_by_agm"

/-- One status either stays put or moves exactly one stage forward in the
pipeline order (spec §3, §8). -/
def advances1 (s s' : String) : Prop :=
  s' = s ∨ (s = "submitted" ∧ s' = "approved_by_area_manager")
    ∨ (s = "approved_by_area_manager" ∧ s' = "approved_by_agm")

/-- Well-formedness of the customers dict as an association list: keys are
pairwise distinct (a Python dict invariant) and each record's
`customer_id` field equals its key (established by `submit_customer`, which
inserts at the generated ID). -/
def WF (db : Store) : Prop :=
  (db.customers.map Prod.fst).Nodup ∧
  ∀ p ∈ db.customers, (Prod.snd p).customer_id = Prod.fst p

/-- The role-scope filter of the listing, as the spec words it (§4.3):
`branch` sees own submissions, `area_manager` sees records of its branches,
everyone else sees all. -/
def scopeOk (user : Account) (c : Customer) : Prop :=
  if user.role = "branch" then c.submitted_by = user.username
  else if user.role = "area_manager" then c.branch ∈ user.assigned_branches
  else True

/-- Does a fallible store operation succeed? -/
def isOkE (r : Except OpError Store) : Bool :=
  match r with
  | .ok _ => true
  | .error _ => false

/-- Replace the customers section of a snapshot. -/
def setCustomers (db : Store) (cs : List (String × Customer)) : Store :=
  { db with customers := cs }

/-!
## Concrete fixtures

A small population mirroring the scenario walk-through of spec §8: an admin,
an AGM `A1`, an area manager `M1` assigned to branch `North`, a branch user
`B1`, and three customer records in the three pipeline states.
-/

def dash0 : Dashboard :=
  { text := "Welcome to CRM System. Please login to continue.", image_path := none }

def admin0 : Account :=
  { username := "ASHIK", password := "hpw0", role := "admin",
    assigned_branches := [], created_by := "system", created_at := "t0" }

def agmA1 : Account :=
  { username := "A1", password := "hpw1", role := "AGM",
    assigned_branches := [], created_by := "ASHIK", created_at := "t0" }

def amM1 : Account :=
  { username := "M1", password := "hpw2", role := "area_manager",
    assigned_branches := ["North"], created_by := "A1", created_at := "t0" }

def branchB1 : Account :=
  { username := "B1", password := "hpw3", role := "branch",
    assigned_branches := ["North"], created_by := "M1", created_at := "t0" }

def recNorth : Customer :=
  { customer_id := "CUST-1", name := "Jane Doe", phone := "9876543210",
    aadhaar_number := "123456789012", email := "", branch := "North",
    submitted_by := "B1", status := "submitted",
    document_path := "uploads/CUST-1_d.pdf", created_at := "t1", updated_at := "t1" }

def recSouth : Customer :=
  { customer_id := "CUST-2", name := "John Roe", phone := "9876543211",
    aadhaar_number := "123456789013", email := "", branch := "South",
    submitted_by := "B2", status := "submitted",
    document_path := "uploads/CUST-2_d.pdf", created_at := "t1", updated_at := "t1" }

def recFinal : Customer :=
  { customer_id := "CUST-3", name := "Maya Poe", phone := "9876543212",
    aadhaar_number := "123456789014", email := "m@example.com", branch := "North",
    submitted_by := "B1", status := "approved_by_agm",
    document_path := "uploads/CUST-3_d.pdf", created_at := "t1", updated_at := "t2" }

def db0 : Store :=
  { users := [("ASHIK", admin0), ("A1", agmA1), ("M1", amM1), ("B1", branchB1)],
    customers := [("CUST-1", recNorth), ("CUST-2", recSouth), ("CUST-3", recFinal)],
    dashboard := dash0 }

/-- `recNorth` after area-manager approval at time `t2`. -/
def recNorthApproved : Customer :=
  { recNorth with status := "approved_by_area_manager", updated_at := "t2" }

/-!
## Association-list lemmas
-/

theorem lookup_insert_self {α : Type} (k : String) (v : α)
    (l : List (String × α)) : lookupKey k (insertKey k v l) = some v := by
  induction l with
  | nil => simp [insertKey, lookupKey]
  | cons p t ih =>
    obtain ⟨k', v'⟩ := p
    by_cases hk : k' = k
    · simp [insertKey, hk, lookupKey]
    · simp [insertKey, hk, lookupKey, ih]

theorem lookup_insert_ne {α : Type} (k k' : String) (v : α)
    (l : List (String × α)) (h : k' ≠ k) :
    lookupKey k' (insertKey k v l) = lookupKey k' l := by
  induction l with
  | nil => simp [insertKey, lookupKey, Ne.symm h]
  | cons p t ih =>
    obtain ⟨a, b⟩ := p
    by_cases ha : a = k
    · subst ha
      simp [insertKey, lookupKey, Ne.symm h]
    · by_cases ha' : a = k'
      · simp [insertKey, ha, lookupKey, ha', h]
      · simp [insertKey, ha, lookupKey, ha', ih]

theorem lookup_erase_ne {α : Type} (k k' : String)
    (l : List (String × α)) (h : k' ≠ k) :
    lookupKey k' (eraseKey k l) = lookupKey k' l := by
  induction l with
  | nil => simp [eraseKey]
  | cons p t ih =>
    obtain ⟨a, b⟩ := p
    by_cases ha : a = k
    · subst ha
      simp [eraseKey, lookupKey, Ne.symm h]
    · by_cases ha' : a = k'
      · simp [eraseKey, ha, lookupKey, ha', h]
      · simp [eraseKey, ha, lookupKey, ha', ih]

theorem lookup_none_of_not_mem_keys {α : Type} (k : String)
    (l : List (String × α)) (h : k ∉ l.map Prod.fst) : lookupKey k l = none := by
  induction l with
  | nil => simp [lookupKey]
  | cons p t ih =>
    obtain ⟨a, b⟩ := p
    simp only [List.map_cons, List.mem_cons] at h
    push_neg at h
    simp [lookupKey, Ne.symm h.1, ih h.2]

theorem lookup_erase_self {α : Type} (k : String)
    (l : List (String × α)) (hnd : (l.map Prod.fst).Nodup) :
    lookupKey k (eraseKey k l) = none := by
  induction l with
  | nil => simp [eraseKey, lookupKey]
  | cons p t ih =>
    obtain ⟨a, b⟩ := p
    simp only [List.map_cons, List.nodup_cons] at hnd
    by_cases ha : a = k
    · subst ha
      simp [eraseKey, lookup_none_of_not_mem_keys a t hnd.1]
    · simp [eraseKey, ha, lookupKey, ha, ih hnd.2]

theorem mem_of_lookup {α : Type} (k : String) (v : α)
    (l : List (String × α)) (h : lookupKey k l = some v) : v ∈ l.map Prod.snd := by
  induction l with
  | nil => simp [lookupKey] at h
  | cons p t ih =>
    obtain ⟨a, b⟩ := p
    by_cases ha : a = k
    · simp [lookupKey, ha] at h
      simp [h]
    · simp only [lookupKey, ha, if_false] at h
      simp [ih h]

end CRM

namespace CRM

@[simp] theorem runOp_ok (db' db : Store) : runOp (.ok db') db = db' := rfl

@[simp] theorem runOp_error (e : OpError) (db : Store) : runOp (.error e) db = db := rfl

theorem lookup_mem {α : Type} (k : String) (v : α) (l : List (String × α))
    (h : lookupKey k l = some v) : (k, v) ∈ l := by
  induction l with
  | nil => simp [lookupKey] at h
  | cons p t ih =>
    obtain ⟨a, b⟩ := p
    by_cases ha : a = k
    · subst ha
      simp [lookupKey] at h
      simp [h]
    · simp only [lookupKey, ha, if_false] at h
      simp [ih h]

theorem customer_id_of_lookup (db : Store) (hWF : WF db) (k : String)
    (c : Customer) (h : lookupKey k db.customers = some c) :
    c.customer_id = k :=
  hWF.2 (k, c) (lookup_mem k c db.customers h)

/-! Characterization of the two approval buttons. -/

theorem approve_not_found (user : Account) (cid now : String) (db : Store)
    (h : lookupKey cid db.customers = none) :
    approve user cid now db = .error .NotFound := by
  simp [approve, h]

theorem approve_submitted_ok (user : Account) (cid now : String) (db : Store)
    (c : Customer) (hc : lookupKey cid db.customers = some c)
    (hs : c.status = "submitted")
    (hcond : user.role = "area_manager" ∧ c.branch ∈ user.assigned_branches) :
    approve user cid now db = .ok (setCustomers db (insertKey c.customer_id
      { c with status := "approved_by_area_manager", updated_at := now } db.customers)) := by
  simp only [approve, hc]
  rw [if_pos hs, if_pos hcond]
  rfl

theorem approve_submitted_denied (user : Account) (cid now : String) (db : Store)
    (c : Customer) (hc : lookupKey cid db.customers = some c)
    (hs : c.status = "submitted")
    (hcond : ¬(user.role = "area_manager" ∧ c.branch ∈ user.assigned_branches)) :
    approve user cid now db = .error .PermissionDenied := by
  simp only [approve, hc]
  rw [if_pos hs, if_neg hcond]

theorem approve_am_ok (user : Account) (cid now : String) (db : Store)
    (c : Customer) (hc : lookupKey cid db.customers = some c)
    (hs : c.status = "approved_by_area_manager") (hrole : user.role = "AGM") :
    approve user cid now db = .ok (setCustomers db (insertKey c.customer_id
      { c with status := "approved_by_agm", updated_at := now } db.customers)) := by
  have hns : ¬ c.status = "submitted" := by rw [hs]; decide
  simp only [approve, hc]
  rw [if_neg hns, if_pos hs, if_pos hrole]
  rfl

theorem approve_am_denied (user : Account) (cid now : String) (db : Store)
    (c : Customer) (hc : lookupKey cid db.customers = some c)
    (hs : c.status = "approved_by_area_manager") (hrole : ¬ user.role = "AGM") :
    approve user cid now db = .error .PermissionDenied := by
  have hns : ¬ c.status = "submitted" := by rw [hs]; decide
  simp only [approve, hc]
  rw [if_neg hns, if_pos hs, if_neg hrole]

theorem approve_other_final (user : Account) (cid now : String) (db : Store)
    (c : Customer) (hc : lookupKey cid db.customers = some c)
    (hs1 : ¬ c.status = "submitted")
    (hs2 : ¬ c.status = "approved_by_area_manager") :
    approve user cid now db = .error .AlreadyFinal := by
  simp only [approve, hc]
  rw [if_neg hs1, if_neg hs2]

/-! The non-customer operations do not touch the customers section. -/

theorem customers_create_agm (creator : Account) (u p h now : String) (db : Store) :
    (runOp (create_agm creator u p h now db) db).customers = db.customers := by
  unfold create_agm
  split_ifs <;> simp

theorem customers_create_area_manager (creator : Account) (u p br h now : String)
    (db : Store) :
    (runOp (create_area_manager creator u p br h now db) db).customers = db.customers := by
  unfold create_area_manager
  split_ifs <;> simp

theorem customers_create_branch_user (creator : Account) (u p b h now : String)
    (db : Store) :
    (runOp (create_branch_user creator u p b h now db) db).customers = db.customers := by
  unfold create_branch_user
  split_ifs <;> simp

theorem customers_update_dashboard (text : String) (img : Option String) (ts : Int)
    (db : Store) : (update_dashboard text img ts db).customers = db.customers := by
  unfold update_dashboard
  cases img <;> simp

theorem customers_delete_dashboard_image (db : Store) :
    (delete_dashboard_image db).customers = db.customers := rfl

theorem customers_ensure_default_admin (hashPw : String → String) (now : String)
    (db : Store) : (ensure_default_admin hashPw now db).customers = db.customers := by
  unfold ensure_default_admin
  cases lookupKey "ASHIK" db.users <;> simp

end CRM

namespace CRM

@[simp] theorem setCustomers_customers (db : Store) (cs : List (String × Customer)) :
    (setCustomers db cs).customers = cs := rfl

/-! Characterization of the admin delete action. -/

theorem delete_not_admin (user : Account) (cid : String)
    (fe rk : String → Bool) (db : Store) (hrole : user.role ≠ "admin") :
    delete_customer user cid fe rk db = .error .PermissionDenied := by
  simp [delete_customer, hrole]

theorem delete_not_found (user : Account) (cid : String)
    (fe rk : String → Bool) (db : Store) (hrole : user.role = "admin")
    (h : lookupKey cid db.customers = none) :
    delete_customer user cid fe rk db = .error .NotFound := by
  simp [delete_customer, hrole, h]

theorem delete_ok_nofile (user : Account) (cid : String)
    (fe rk : String → Bool) (db : Store) (c : Customer)
    (hrole : user.role = "admin") (hc : lookupKey cid db.customers = some c)
    (hfile : ¬(c.document_path ≠ "" ∧ fe c.document_path = true)) :
    delete_customer user cid fe rk db =
      .ok (setCustomers db (eraseKey c.customer_id db.customers)) := by
  simp only [delete_customer, hrole, hc]
  rw [if_neg (by simp [hrole])]
  rw [if_neg hfile]
  rfl

theorem delete_ok_removed (user : Account) (cid : String)
    (fe rk : String → Bool) (db : Store) (c : Customer)
    (hrole : user.role = "admin") (hc : lookupKey cid db.customers = some c)
    (hne : c.document_path ≠ "") (hfe : fe c.document_path = true)
    (hrk : rk c.document_path = true) :
    delete_customer user cid fe rk db =
      .ok (setCustomers db (eraseKey c.customer_id db.customers)) := by
  simp only [delete_customer, hrole, hc]
  rw [if_neg (by simp [hrole])]
  rw [if_pos ⟨hne, hfe⟩, if_pos hrk]
  rfl

theorem delete_file_blocked (user : Account) (cid : String)
    (fe rk : String → Bool) (db : Store) (c : Customer)
    (hrole : user.role = "admin") (hc : lookupKey cid db.customers = some c)
    (hne : c.document_path ≠ "") (hfe : fe c.document_path = true)
    (hrk : rk c.document_path = false) :
    delete_customer user cid fe rk db = .error .FileRemovalFailed := by
  simp only [delete_customer, hrole, hc]
  rw [if_neg (by simp [hrole])]
  rw [if_pos ⟨hne, hfe⟩, if_neg (by simp [hrk])]

end CRM

namespace CRM

/--
**C1**: For every customer record in the store, the status field only takes
values in the ordered pipeline [submitted, approved_by_area_manager,
approved_by_agm], and every operation of the system (approve, submit, delete,
account creation, settings update, bootstrap) either leaves a record's status
unchanged or advances it exactly one stage forward; records created by submit
start at the bottom of the pipeline, and no operation regresses or skips a
stage.
-/
theorem status_pipeline_invariant (op : Op) (db : Store) (hWF : WF db)
    (k : String) (c' : Customer)
    (h : lookupKey k (applyOp op db).customers = some c') :
    ((∃ c, lookupKey k db.customers = some c ∧ advances1 c.status c'.status)
      ∨ c'.status = "submitted")
    ∧ ((∀ k0 c0, lookupKey k0 db.customers = some c0 → validStatus c0.status) →
        validStatus c'.status) := by
  have main : (∃ c, lookupKey k db.customers = some c ∧ advances1 c.status c'.status)
      ∨ c'.status = "submitted" := by
    cases op with
    | approval user cid now =>
      simp only [applyOp] at h
      rcases heq : lookupKey cid db.customers with _ | c0
      · rw [approve_not_found user cid now db heq, runOp_error] at h
        exact Or.inl ⟨c', h, Or.inl rfl⟩
      · have hid : c0.customer_id = cid := customer_id_of_lookup db hWF cid c0 heq
        by_cases hs : c0.status = "submitted"
        · by_cases hcond : user.role = "area_manager" ∧ c0.branch ∈ user.assigned_branches
          · rw [approve_submitted_ok user cid now db c0 heq hs hcond, runOp_ok,
              setCustomers_customers, hid] at h
            by_cases hk : k = cid
            · subst hk
              rw [lookup_insert_self] at h
              have hc' := Option.some.inj h
              refine Or.inl ⟨c0, heq, Or.inr (Or.inl ⟨hs, ?_⟩)⟩
              rw [← hc']
            · rw [lookup_insert_ne cid k _ _ hk] at h
              exact Or.inl ⟨c', h, Or.inl rfl⟩
          · rw [approve_submitted_denied user cid now db c0 heq hs hcond, runOp_error] at h
            exact Or.inl ⟨c', h, Or.inl rfl⟩
        · by_cases ham : c0.status = "approved_by_area_manager"
          · by_cases hrole : user.role = "AGM"
            · rw [approve_am_ok user cid now db c0 heq ham hrole, runOp_ok,
                setCustomers_customers, hid] at h
              by_cases hk : k = cid
              · subst hk
                rw [lookup_insert_self] at h
                have hc' := Option.some.inj h
                refine Or.inl ⟨c0, heq, Or.inr (Or.inr ⟨ham, ?_⟩)⟩
                rw [← hc']
              · rw [lookup_insert_ne cid k _ _ hk] at h
                exact Or.inl ⟨c', h, Or.inl rfl⟩
            · rw [approve_am_denied user cid now db c0 heq ham hrole, runOp_error] at h
              exact Or.inl ⟨c', h, Or.inl rfl⟩
          · rw [approve_other_final user cid now db c0 heq hs ham, runOp_error] at h
            exact Or.inl ⟨c', h, Or.inl rfl⟩
    | submission user name phone aadhaar email file ts now1 now2 =>
      simp only [applyOp, submit_customer] at h
      split_ifs at h with h1 h2 h3
      · rw [runOp_error] at h
        exact Or.inl ⟨c', h, Or.inl rfl⟩
      · rw [runOp_ok] at h
        dsimp only at h
        by_cases hk : k = generate_customer_id ts
        · subst hk
          rw [lookup_insert_self] at h
          have hc' := Option.some.inj h
          refine Or.inr ?_
          rw [← hc']
        · rw [lookup_insert_ne (generate_customer_id ts) k _ _ hk] at h
          exact Or.inl ⟨c', h, Or.inl rfl⟩
      · rw [runOp_error] at h
        exact Or.inl ⟨c', h, Or.inl rfl⟩
      · rw [runOp_error] at h
        exact Or.inl ⟨c', h, Or.inl rfl⟩
    | deletion user cid fe rk =>
      simp only [applyOp] at h
      by_cases hrole : user.role = "admin"
      · rcases heq : lookupKey cid db.customers with _ | c0
        · rw [delete_not_found user cid fe rk db hrole heq, runOp_error] at h
          exact Or.inl ⟨c', h, Or.inl rfl⟩
        · have hid : c0.customer_id = cid := customer_id_of_lookup db hWF cid c0 heq
          have herase : lookupKey k (eraseKey cid db.customers) = some c' →
              (∃ c, lookupKey k db.customers = some c ∧ advances1 c.status c'.status)
              ∨ c'.status = "submitted" := by
            intro he
            by_cases hk : k = cid
            · subst hk
              rw [lookup_erase_self k db.customers hWF.1] at he
              exact absurd he (by simp)
            · rw [lookup_erase_ne cid k _ hk] at he
              exact Or.inl ⟨c', he, Or.inl rfl⟩
          by_cases hfile : c0.document_path ≠ "" ∧ fe c0.document_path = true
          · by_cases hrk : rk c0.document_path = true
            · rw [delete_ok_removed user cid fe rk db c0 hrole heq hfile.1 hfile.2 hrk,
                runOp_ok, setCustomers_customers, hid] at h
              exact herase h
            · rw [delete_file_blocked user cid fe rk db c0 hrole heq hfile.1 hfile.2
                (by simpa using hrk), runOp_error] at h
              exact Or.inl ⟨c', h, Or.inl rfl⟩
          · rw [delete_ok_nofile user cid fe rk db c0 hrole heq hfile,
              runOp_ok, setCustomers_customers, hid] at h
            exact herase h
      · rw [delete_not_admin user cid fe rk db hrole, runOp_error] at h
        exact Or.inl ⟨c', h, Or.inl rfl⟩
    | newAGM creator u p hsh now =>
      simp only [applyOp] at h
      rw [customers_create_agm] at h
      exact Or.inl ⟨c', h, Or.inl rfl⟩
    | newAreaManager creator u p br hsh now =>
      simp only [applyOp] at h
      rw [customers_create_area_manager] at h
      exact Or.inl ⟨c', h, Or.inl rfl⟩
    | newBranchUser creator u p b hsh now =>
      simp only [applyOp] at h
      rw [customers_create_branch_user] at h
      exact Or.inl ⟨c', h, Or.inl rfl⟩
    | settingsUpdate text img ts =>
      simp only [applyOp] at h
      rw [customers_update_dashboard] at h
      exact Or.inl ⟨c', h, Or.inl rfl⟩
    | settingsImageDelete =>
      simp only [applyOp] at h
      rw [customers_delete_dashboard_image] at h
      exact Or.inl ⟨c', h, Or.inl rfl⟩
    | bootstrap hashPw now =>
      simp only [applyOp] at h
      rw [customers_ensure_default_admin] at h
      exact Or.inl ⟨c', h, Or.inl rfl⟩
  refine ⟨main, ?_⟩
  intro hv
  rcases main with ⟨c, hc, hadv⟩ | hnew
  · have hvc := hv k c hc
    rcases hadv with he | ⟨_, h2⟩ | ⟨_, h2⟩
    · rw [he]
      exact hvc
    · rw [h2]
      exact Or.inr (Or.inl rfl)
    · rw [h2]
      exact Or.inr (Or.inr rfl)
  · rw [hnew]
    exact Or.inl rfl

end CRM

namespace CRM

/-- Witness for C1: area manager `M1` approving the submitted `North` record
advances it exactly one stage. -/
theorem status_pipeline_invariant_witness :
    ((∃ c, lookupKey "CUST-1" db0.customers = some c ∧
        advances1 c.status recNorthApproved.status)
      ∨ recNorthApproved.status = "submitted")
    ∧ ((∀ k0 c0, lookupKey k0 db0.customers = some c0 → validStatus c0.status) →
        validStatus recNorthApproved.status) :=
  status_pipeline_invariant (Op.approval amM1 "CUST-1" "t2") db0
    ⟨by decide, by decide⟩ "CUST-1" recNorthApproved (by decide)

/--
**C2**: For a record with status `submitted`, the approve transition succeeds
iff the caller's role is `area_manager` and the record's branch is among the
caller's assigned branches; on success the record's status becomes
`approved_by_area_manager` with `updated_at` refreshed, and an area manager
whose branches do not include the record's branch gets `PermissionDenied`
with the store unchanged.
-/
theorem approve_submitted_iff (user : Account) (cid now : String) (db : Store)
    (c : Customer) (hc : lookupKey cid db.customers = some c)
    (hid : c.customer_id = cid) (hs : c.status = "submitted") :
    ((∃ db', approve user cid now db = .ok db') ↔
      (user.role = "area_manager" ∧ c.branch ∈ user.assigned_branches))
    ∧ (∀ db', approve user cid now db = .ok db' →
        lookupKey cid db'.customers =
          some { c with status := "approved_by_area_manager", updated_at := now })
    ∧ (user.role = "area_manager" → c.branch ∉ user.assigned_branches →
        approve user cid now db = .error .PermissionDenied ∧
        runOp (approve user cid now db) db = db) := by
  by_cases hcond : user.role = "area_manager" ∧ c.branch ∈ user.assigned_branches
  · have hok := approve_submitted_ok user cid now db c hc hs hcond
    refine ⟨⟨fun _ => hcond, fun _ => ⟨_, hok⟩⟩, ?_, ?_⟩
    · intro db' hdb'
      rw [hok] at hdb'
      have hdb : setCustomers db (insertKey c.customer_id
          { c with status := "approved_by_area_manager", updated_at := now }
          db.customers) = db' := by injection hdb'
      rw [← hdb, setCustomers_customers, hid, lookup_insert_self]
    · intro _ hb
      exact absurd hcond.2 hb
  · have herr := approve_submitted_denied user cid now db c hc hs hcond
    refine ⟨⟨?_, fun hcc => absurd hcc hcond⟩, ?_, ?_⟩
    · rintro ⟨db', hdb'⟩
      rw [herr] at hdb'
      exact absurd hdb' (by simp)
    · intro db' hdb'
      rw [herr] at hdb'
      exact absurd hdb' (by simp)
    · intro _ _
      rw [herr]
      exact ⟨rfl, rfl⟩

/-- Witness for C2, the spec §8 scenario: `M1` (branches = ["North"])
attempting to approve the `South` record is denied and changes nothing. -/
theorem approve_submitted_iff_witness :
    ((∃ db', approve amM1 "CUST-2" "t2" db0 = .ok db') ↔
      (amM1.role = "area_manager" ∧ recSouth.branch ∈ amM1.assigned_branches))
    ∧ (∀ db', approve amM1 "CUST-2" "t2" db0 = .ok db' →
        lookupKey "CUST-2" db'.customers =
          some { recSouth with status := "approved_by_area_manager", updated_at := "t2" })
    ∧ (amM1.role = "area_manager" → recSouth.branch ∉ amM1.assigned_branches →
        approve amM1 "CUST-2" "t2" db0 = .error .PermissionDenied ∧
        runOp (approve amM1 "CUST-2" "t2" db0) db0 = db0) :=
  approve_submitted_iff amM1 "CUST-2" "t2" db0 recSouth (by decide) (by decide) (by decide)

/--
**C3**: A record whose status is `approved_by_agm` is terminal: any approval
attempt, by any account, fails with `AlreadyFinal` and leaves the store (and
hence the record) unchanged.
-/
theorem approve_final_fails (user : Account) (cid now : String) (db : Store)
    (c : Customer) (hc : lookupKey cid db.customers = some c)
    (hs : c.status = "approved_by_agm") :
    approve user cid now db = .error .AlreadyFinal ∧
    runOp (approve user cid now db) db = db := by
  have h1 : ¬ c.status = "submitted" := by rw [hs]; decide
  have h2 : ¬ c.status = "approved_by_area_manager" := by rw [hs]; decide
  have herr := approve_other_final user cid now db c hc h1 h2
  rw [herr]
  exact ⟨rfl, rfl⟩

/-- Witness for C3, the spec §8 scenario: `A1` (an AGM) re-approving the
finally-approved record fails with `AlreadyFinal`. -/
theorem approve_final_fails_witness :
    approve agmA1 "CUST-3" "t3" db0 = .error .AlreadyFinal ∧
    runOp (approve agmA1 "CUST-3" "t3" db0) db0 = db0 :=
  approve_final_fails agmA1 "CUST-3" "t3" db0 recFinal (by decide) (by decide)

end CRM

namespace CRM

/--
**C4** (failing behaviour): `generate_customer_id` is purely time-derived and
`submit_customer_page` performs no existence check before inserting, so a
submit whose timestamp collides with an existing record's ID silently
overwrites that record instead of regenerating a fresh ID: with `CUST-1`
already in the store, a submit at timestamp 1 succeeds and the record stored
under `CUST-1` is no longer the original one.
-/
theorem submit_overwrites_existing_id :
    generate_customer_id 1 = "CUST-1"
    ∧ lookupKey "CUST-1" db0.customers = some recNorth
    ∧ isOkE (submit_customer branchB1 "New Person" "9999999999" "999999999999"
        "" (some "n.pdf") 1 "t5" "t5" db0) = true
    ∧ lookupKey "CUST-1" (runOp (submit_customer branchB1 "New Person"
        "9999999999" "999999999999" "" (some "n.pdf") 1 "t5" "t5" db0)
        db0).customers ≠ some recNorth := by
  refine ⟨rfl, by decide, by decide, by decide⟩

/--
**C5 counterexample**: the code performs no email-format validation at all —
a submit whose email contains neither `@` nor `.` succeeds and creates a
record, where the claim says it must fail with `InvalidEmail`.
-/
theorem submit_ignores_email_format :
    ¬ ('@' ∈ ("janedoe" : String).data)
    ∧ ¬ ('.' ∈ ("janedoe" : String).data)
    ∧ isOkE (submit_customer branchB1 "Jane Doe" "9876543210" "123456789012"
        "janedoe" (some "d.pdf") 500 "t5" "t5" db0) = true := by
  refine ⟨by decide, by decide, by decide⟩

/--
**C5 (amended)**: submit validations are applied in order with first failure
winning — missing name/phone/aadhaar/document gives `MissingField`, then a
phone that is not exactly 10 digits gives `InvalidPhone`, then an aadhaar
that is not exactly 12 digits gives `InvalidAadhaar`; no email validation is
performed; and every failure leaves the store unchanged.
-/
theorem submit_validation_order (user : Account) (name phone aadhaar email : String)
    (file : Option String) (ts : Int) (now1 now2 : String) (db : Store) :
    ((name = "" ∨ phone = "" ∨ aadhaar = "" ∨ file = none) →
      submit_customer user name phone aadhaar email file ts now1 now2 db =
        .error .MissingField)
    ∧ (¬(name = "" ∨ phone = "" ∨ aadhaar = "" ∨ file = none) →
        ¬(isdigit phone = true ∧ phone.length = 10) →
        submit_customer user name phone aadhaar email file ts now1 now2 db =
          .error .InvalidPhone)
    ∧ (¬(name = "" ∨ phone = "" ∨ aadhaar = "" ∨ file = none) →
        (isdigit phone = true ∧ phone.length = 10) →
        ¬(isdigit aadhaar = true ∧ aadhaar.length = 12) →
        submit_customer user name phone aadhaar email file ts now1 now2 db =
          .error .InvalidAadhaar)
    ∧ (∀ e, submit_customer user name phone aadhaar email file ts now1 now2 db =
        .error e →
        runOp (submit_customer user name phone aadhaar email file ts now1 now2 db) db = db) := by
  refine ⟨?_, ?_, ?_, ?_⟩
  · intro hm
    simp only [submit_customer]
    rw [if_pos hm]
  · intro hm hp
    simp only [submit_customer]
    rw [if_neg hm, if_pos hp]
  · intro hm hp ha
    simp only [submit_customer]
    rw [if_neg hm, if_neg (not_not_intro hp), if_pos ha]
  · intro e he
    rw [he]
    rfl

/-- Witness for C5 (amended), the spec §8 scenario: phone `"12345"` fails
with `InvalidPhone` and the store is unchanged. -/
theorem submit_validation_order_witness :
    submit_customer branchB1 "Jane Doe" "12345" "123456789012" "" (some "d.pdf")
      600 "t6" "t6" db0 = .error .InvalidPhone
    ∧ runOp (submit_customer branchB1 "Jane Doe" "12345" "123456789012" ""
        (some "d.pdf") 600 "t6" "t6" db0) db0 = db0 := by
  have h := submit_validation_order branchB1 "Jane Doe" "12345" "123456789012"
    "" (some "d.pdf") 600 "t6" "t6" db0
  have hp := h.2.1 (by decide) (by decide)
  exact ⟨hp, h.2.2.2 OpError.InvalidPhone hp⟩

/--
**C7 counterexample**: `created_at` and `updated_at` come from two separate
`str(datetime.now())` calls (app.py:523-524); when the clock advances between
them the stored record's two timestamps differ, so they are not "stamped
identically".
-/
theorem submit_two_clock_reads :
    ((lookupKey "CUST-700" (runOp (submit_customer branchB1 "Jane Doe"
        "9876543210" "123456789012" "" (some "d.pdf") 700
        "2024-01-01 00:00:00.000001" "2024-01-01 00:00:00.000002" db0)
        db0).customers).map Customer.created_at = some "2024-01-01 00:00:00.000001")
    ∧ ((lookupKey "CUST-700" (runOp (submit_customer branchB1 "Jane Doe"
        "9876543210" "123456789012" "" (some "d.pdf") 700
        "2024-01-01 00:00:00.000001" "2024-01-01 00:00:00.000002" db0)
        db0).customers).map Customer.updated_at = some "2024-01-01 00:00:00.000002")
    ∧ ("2024-01-01 00:00:00.000001" : String) ≠ "2024-01-01 00:00:00.000002" := by
  refine ⟨by decide, by decide, by decide⟩

/--
**C7 (amended)**: a successful submit stores the record under the generated
ID with branch equal to the submitter's first assigned branch (or
`"Unassigned"` when none), status `submitted`, `created_at` set to the first
clock read and `updated_at` to the second (equal exactly when the two reads
coincide).
-/
theorem submit_success_fields (user : Account) (name phone aadhaar email : String)
    (file : Option String) (ts : Int) (now1 now2 : String) (db db' : Store)
    (h : submit_customer user name phone aadhaar email file ts now1 now2 db = .ok db') :
    ∃ r, lookupKey (generate_customer_id ts) db'.customers = some r
      ∧ r.branch = user.assigned_branches.headD "Unassigned"
      ∧ r.status = "submitted"
      ∧ r.created_at = now1
      ∧ r.updated_at = now2 := by
  rcases hbr : user.assigned_branches with _ | ⟨b0, bs⟩
  · simp only [submit_customer, hbr] at h
    split_ifs at h with h1 h2 h3
    rw [Except.ok.injEq] at h
    subst h
    exact ⟨_, lookup_insert_self (generate_customer_id ts) _ db.customers,
      rfl, rfl, rfl, rfl⟩
  · simp only [submit_customer, hbr] at h
    split_ifs at h with h1 h2 h3
    rw [Except.ok.injEq] at h
    subst h
    exact ⟨_, lookup_insert_self (generate_customer_id ts) _ db.customers,
      rfl, rfl, rfl, rfl⟩

/-- Witness for C7 (amended): a concrete successful submit by `B1`. -/
theorem submit_success_fields_witness :
    ∃ r, lookupKey (generate_customer_id 800) (runOp (submit_customer branchB1
        "Jane Doe" "9876543210" "123456789012" "" (some "d.pdf") 800 "t8" "t8" db0)
        db0).customers = some r
      ∧ r.branch = branchB1.assigned_branches.headD "Unassigned"
      ∧ r.status = "submitted"
      ∧ r.created_at = "t8"
      ∧ r.updated_at = "t8" :=
  submit_success_fields branchB1 "Jane Doe" "9876543210" "123456789012" ""
    (some "d.pdf") 800 "t8" "t8" db0 _ rfl

end CRM

namespace CRM

/--
**C6**: the listing returns exactly the records passing the role-scope filter
(`branch` sees own submissions, `area_manager` sees records of its assigned
branches, everyone else sees all), further restricted — when the search term
is non-empty — to records matching it case-insensitively on name, ID, or
phone.  Determinism is immediate: `view_records` is a pure function of its
arguments.
-/
theorem view_records_spec (user : Account) (search : String) (db : Store)
    (c : Customer) :
    c ∈ view_records user search db ↔
      (c ∈ db.customers.map Prod.snd ∧ scopeOk user c ∧
        (search ≠ "" → matchesSearch search c = true)) := by
  by_cases h1 : user.role = "branch" <;> by_cases h2 : user.role = "area_manager" <;>
    by_cases h3 : search = "" <;>
      simp [view_records, scopeOk, h1, h2, h3, List.mem_filter, and_assoc, and_comm]

/--
**C8 counterexample**: in the code, `os.remove` sits inside the same
`try` block, before `del db["customers"][...]`; when file removal fails the
exception aborts the whole action, so the record is *not* removed — deletion
of the document is not best-effort.  With a record whose document exists but
cannot be removed, an admin delete errors out and the record survives.
-/
theorem delete_blocked_by_file_failure :
    delete_customer admin0 "CUST-3" (fun _ => true) (fun _ => false) db0 =
      .error .FileRemovalFailed
    ∧ runOp (delete_customer admin0 "CUST-3" (fun _ => true) (fun _ => false) db0)
        db0 = db0
    ∧ lookupKey "CUST-3" (runOp (delete_customer admin0 "CUST-3" (fun _ => true)
        (fun _ => false) db0) db0).customers = some recFinal := by
  refine ⟨rfl, rfl, by decide⟩

/--
**C8 (amended)**: admin-only delete — non-admin callers get
`PermissionDenied`, an unknown ID gets `NotFound`, both leaving the store
unchanged; when the record's document file is absent or its removal
succeeds, the record is removed from the store; but when the document file
exists and its removal fails, the delete aborts with an error and the record
remains (file-removal failure blocks record removal).
-/
theorem delete_customer_cases (user : Account) (cid : String)
    (fe rk : String → Bool) (db : Store) :
    (user.role ≠ "admin" →
      delete_customer user cid fe rk db = .error .PermissionDenied ∧
      runOp (delete_customer user cid fe rk db) db = db)
    ∧ (user.role = "admin" → lookupKey cid db.customers = none →
        delete_customer user cid fe rk db = .error .NotFound ∧
        runOp (delete_customer user cid fe rk db) db = db)
    ∧ (∀ c, user.role = "admin" → lookupKey cid db.customers = some c →
        ((¬(c.document_path ≠ "" ∧ fe c.document_path = true) ∨ rk c.document_path = true) →
          delete_customer user cid fe rk db =
            .ok (setCustomers db (eraseKey c.customer_id db.customers)))
        ∧ (c.document_path ≠ "" → fe c.document_path = true → rk c.document_path = false →
          delete_customer user cid fe rk db = .error .FileRemovalFailed ∧
          runOp (delete_customer user cid fe rk db) db = db)) := by
  refine ⟨?_, ?_, ?_⟩
  · intro hrole
    rw [delete_not_admin user cid fe rk db hrole]
    exact ⟨rfl, rfl⟩
  · intro hrole hnone
    rw [delete_not_found user cid fe rk db hrole hnone]
    exact ⟨rfl, rfl⟩
  · intro c hrole hc
    constructor
    · rintro (hno | hrk)
      · exact delete_ok_nofile user cid fe rk db c hrole hc hno
      · by_cases hfile : c.document_path ≠ "" ∧ fe c.document_path = true
        · exact delete_ok_removed user cid fe rk db c hrole hc hfile.1 hfile.2 hrk
        · exact delete_ok_nofile user cid fe rk db c hrole hc hfile
    · intro hne hfe hrk
      rw [delete_file_blocked user cid fe rk db c hrole hc hne hfe hrk]
      exact ⟨rfl, rfl⟩

/-- Witness for C8 (amended): an admin delete whose document file is absent
removes the record. -/
theorem delete_customer_cases_witness :
    delete_customer admin0 "CUST-1" (fun _ => false) (fun _ => false) db0 =
      .ok (setCustomers db0 (eraseKey "CUST-1" db0.customers)) := by
  have h := delete_customer_cases admin0 "CUST-1" (fun _ => false) (fun _ => false) db0
  exact (h.2.2 recNorth (by decide) (by decide)).1 (Or.inl (by decide))

/--
**C9**: the persisted-representation round-trip — when the data file holds a
snapshot the JSON codec can read, loading it and immediately saving it back
produces a file that parses to the same document, i.e. the durable store is
structurally unchanged.  The `json` library codec is abstract here; its
round-trip contract (`loads(dumps(v)) = v`) enters as the hypothesis `h2`
and is discharged concretely by the executable codec in the witness.
-/
theorem save_load_roundtrip (parse : String → Option Json) (dump : Json → String)
    (s : String) (v : Json) (h1 : parse s = some v)
    (h2 : parse (dump v) = some v) :
    parse (save_data dump (load_data parse (some s))) = parse s := by
  simp only [load_data, save_data, h1, h2]

/-- Witness for C9: the executable serializer/reader pair round-trips the
default snapshot, and saving a loaded store reproduces it structurally. -/
theorem save_load_roundtrip_witness :
    parseJson (dumpJson default_data) = some default_data
    ∧ parseJson (save_data dumpJson (load_data parseJson (some (dumpJson default_data)))) =
        parseJson (dumpJson default_data) := by
  have hrt : parseJson (dumpJson default_data) = some default_data := rfl
  exact ⟨hrt, save_load_roundtrip parseJson dumpJson (dumpJson default_data)
    default_data hrt hrt⟩

/--
**C10**: the startup bootstrap always leaves a user keyed `"ASHIK"` in the
store; it inserts the fixed admin account (role `admin`, no branches,
created by `"system"`, hashed fixed password) only when that key is absent,
changes nothing when a user with that key already exists, and is idempotent.
-/
theorem default_admin_bootstrap (hashPw : String → String) (now : String)
    (db : Store) :
    ((lookupKey "ASHIK" (ensure_default_admin hashPw now db).users).isSome = true)
    ∧ ((lookupKey "ASHIK" db.users).isSome = true →
        ensure_default_admin hashPw now db = db)
    ∧ (ensure_default_admin hashPw now (ensure_default_admin hashPw now db) =
        ensure_default_admin hashPw now db)
    ∧ (lookupKey "ASHIK" db.users = none →
        lookupKey "ASHIK" (ensure_default_admin hashPw now db).users = some
          { username := "ASHIK", password := hashPw "ASHph7#", role := "admin",
            assigned_branches := [], created_by := "system", created_at := now }) := by
  rcases heq : lookupKey "ASHIK" db.users with _ | a
  · have he : ensure_default_admin hashPw now db =
        Store.mk (insertKey "ASHIK"
          (Account.mk "ASHIK" (hashPw "ASHph7#") "admin" [] "system" now)
          db.users) db.customers db.dashboard := by
      simp only [ensure_default_admin, heq]
    refine ⟨?_, ?_, ?_, ?_⟩
    · rw [he]
      dsimp only
      rw [lookup_insert_self]
      rfl
    · intro hsome
      simp at hsome
    · rw [he]
      simp only [ensure_default_admin]
      rw [lookup_insert_self]
    · intro _
      rw [he]
      dsimp only
      rw [lookup_insert_self]
  · have he : ensure_default_admin hashPw now db = db := by
      simp only [ensure_default_admin, heq]
    refine ⟨?_, fun _ => he, ?_, ?_⟩
    · rw [he, heq]
      rfl
    · rw [he]
      exact he
    · intro hnone
      exact absurd hnone (by simp)

/-- Witness for C10: on the fixture store, which already has the `"ASHIK"`
admin, the bootstrap is a no-op and the key is present afterwards. -/
theorem default_admin_bootstrap_witness :
    (lookupKey "ASHIK" (ensure_default_admin (fun _ => "H") "t9" db0).users).isSome = true
    ∧ ensure_default_admin (fun _ => "H") "t9" db0 = db0 := by
  have h := default_admin_bootstrap (fun _ => "H") "t9" db0
  exact ⟨h.1, h.2.1 (by decide)⟩

end CRM
